import Mathlib

/-!
Shallow embedding of the LiveKit session controller of RPG-VCMC
(app/src/features/livekit/join.ts, in its two revisions present in the
repository) together with the token-fetch helper (fetchLiveKitToken).

JS strings are embedded as `List Char`; the two JS `Map<string, HTMLAudioElement>` /
`Map<string, HTMLVideoElement>` bookkeeping maps are embedded as association
lists with JS `Map` semantics (`set` replaces in place or appends, `delete`
removes the entry).  DOM elements are represented by numeric ids: every code
path that inserts into a map appends exactly one element to the corresponding
container, and every code path that deletes from a map removes that element
from its parent, so map membership coincides with DOM attachment and the claims
about bindings are claims about the maps.

Awaited external calls (config fetch, anonymous sign-in, token endpoint fetch,
transport connect, unpublish, disconnect) are recorded in an effect trace; the
environment record decides their outcomes.
-/

namespace RPGVCMC

/-- JS strings. -/
abbrev Str := List Char

/-! ### JS `Map` semantics on association lists -/

/-- `m.get(k)` on a JS `Map`. -/
def mapGet (m : List (Str × Nat)) (k : Str) : Option Nat :=
  match m.find? (fun e => e.1 = k) with
  | some e => some e.2
  | none => none

/-- `m.set(k, v)` on a JS `Map`: replace in place if the key exists, else append. -/
def mapSet (m : List (Str × Nat)) (k : Str) (v : Nat) : List (Str × Nat) :=
  match m with
  | [] => [(k, v)]
  | e :: rest => if e.1 = k then (k, v) :: rest else e :: mapSet rest k v

/-- `m.delete(k)` on a JS `Map`. -/
def mapDelete (m : List (Str × Nat)) (k : Str) : List (Str × Nat) :=
  m.filter (fun e => ¬ e.1 = k)

/-- JS `k.startsWith(p)`. -/
def startsWith (k p : Str) : Bool :=
  match k, p with
  | _, [] => true
  | [], _ :: _ => false
  | c :: k', d :: p' => c = d && startsWith k' p'

/-- The binding key `` `${participantIdentity}:${sid}` ``. -/
def mkKey (identity sid : Str) : Str := identity ++ ':' :: sid

/-- The test `/^wss?:\/\//i.test(host)`: the host starts with `ws://` or
`wss://`, case-insensitively. -/
def isWsScheme (host : Str) : Bool :=
  startsWith (host.map Char.toLower) ("ws://".toList) ||
  startsWith (host.map Char.toLower) ("wss://".toList)

/-! ### Data model -/

/-- `Track.Kind` as used by the handlers (audio or video branch). -/
inductive TrackKind
  | audio
  | video
deriving DecidableEq, Repr

/-- A remote track as seen by the event handlers: its kind and its
track session id (`track.sid`). -/
structure RTrack where
  kind : TrackKind
  sid : Str
deriving DecidableEq, Repr

/-- A remote participant as seen by the event handlers: its identity
(`participant.identity`) and its participant session id (`participant.sid`). -/
structure Participant where
  identity : Str
  sid : Str
deriving DecidableEq, Repr

/-- The transport room handle: a session id distinguishing connections, and
`localParticipant.trackPublications` as the list of published track ids. -/
structure Room where
  sid : Nat
  pubs : List Nat
deriving DecidableEq, Repr

/-- The module-level mutable state of `join.ts`: `currentRoom`, the three DOM
mounts, and the two bookkeeping maps.  `nextEl` supplies fresh ids for the
elements created by `track.attach()`. -/
structure ModuleState where
  currentRoom : Option Room
  audioContainerEl : Option Nat
  remoteVideoContainerEl : Option Nat
  localVideoEl : Option Nat
  audioEls : List (Str × Nat)
  videoEls : List (Str × Nat)
  nextEl : Nat
deriving DecidableEq, Repr

/-- The initial module state: all variables null/undefined, both maps empty. -/
def initState : ModuleState :=
  { currentRoom := none
    audioContainerEl := none
    remoteVideoContainerEl := none
    localVideoEl := none
    audioEls := []
    videoEls := []
    nextEl := 0 }

/-! ### Remote track binder (attach/detach helpers and event handlers) -/

/-- `attachRemoteAudio(track, participantIdentity)`: if no audio container is
mounted, return; otherwise create an element, append it to the container, and
record it under `` `${participantIdentity}:${track.sid}` ``. -/
def attachRemoteAudio (st : ModuleState) (track : RTrack) (participantIdentity : Str) :
    ModuleState :=
  match st.audioContainerEl with
  | none => st
  | some _ =>
    { st with
      audioEls := mapSet st.audioEls (mkKey participantIdentity track.sid) st.nextEl
      nextEl := st.nextEl + 1 }

/-- `detachRemoteAudio(participantIdentity, sid)`: remove the element for
`` `${participantIdentity}:${sid}` `` from the DOM and delete the map entry. -/
def detachRemoteAudio (st : ModuleState) (participantIdentity sid : Str) : ModuleState :=
  { st with audioEls := mapDelete st.audioEls (mkKey participantIdentity sid) }

/-- `detachAllRemoteAudioFor(participantIdentity)`: delete every entry whose key
starts with `` `${participantIdentity}:` ``. -/
def detachAllRemoteAudioFor (st : ModuleState) (participantIdentity : Str) : ModuleState :=
  { st with
    audioEls := st.audioEls.filter (fun e => ¬ startsWith e.1 (participantIdentity ++ [':']) = true) }

/-- `attachRemoteVideo(track, participantIdentity)`. -/
def attachRemoteVideo (st : ModuleState) (track : RTrack) (participantIdentity : Str) :
    ModuleState :=
  match st.remoteVideoContainerEl with
  | none => st
  | some _ =>
    { st with
      videoEls := mapSet st.videoEls (mkKey participantIdentity track.sid) st.nextEl
      nextEl := st.nextEl + 1 }

/-- `detachRemoteVideo(participantIdentity, sid)`. -/
def detachRemoteVideo (st : ModuleState) (participantIdentity sid : Str) : ModuleState :=
  { st with videoEls := mapDelete st.videoEls (mkKey participantIdentity sid) }

/-- `detachAllRemoteVideoFor(participantIdentity)`. -/
def detachAllRemoteVideoFor (st : ModuleState) (participantIdentity : Str) : ModuleState :=
  { st with
    videoEls := st.videoEls.filter (fun e => ¬ startsWith e.1 (participantIdentity ++ [':']) = true) }

/-- The `RoomEvent.TrackSubscribed` handler registered by `joinLiveKit`. -/
def onTrackSubscribed (st : ModuleState) (track : RTrack) (participant : Participant) :
    ModuleState :=
  match track.kind with
  | .audio => attachRemoteAudio st track participant.identity
  | .video => attachRemoteVideo st track participant.identity

/-- The `RoomEvent.TrackUnsubscribed` handler registered by `joinLiveKit`.
Note that the source passes `participant.sid`, not `track.sid`, to the detach
helpers. -/
def onTrackUnsubscribed (st : ModuleState) (track : RTrack) (participant : Participant) :
    ModuleState :=
  match track.kind with
  | .audio => detachRemoteAudio st participant.identity participant.sid
  | .video => detachRemoteVideo st participant.identity participant.sid

/-- The `RoomEvent.ParticipantDisconnected` handler registered by `joinLiveKit`. -/
def onParticipantDisconnected (st : ModuleState) (p : Participant) : ModuleState :=
  detachAllRemoteVideoFor (detachAllRemoteAudioFor st p.identity) p.identity

/-! ### Effects -/

/-- The awaited external calls performed by join/leave, recorded in order. -/
inductive Effect
  | configFetch
  | signIn
  | idTokenFetch
  | tokenFetch
  | connectAttempt (roomSid : Nat)
  | startAudio
  | publishTrack (track : Nat)
  | unpublishAttempt (track : Nat)
  | stopTrack (track : Nat)
  | detachAllAudio
  | detachAllVideo
  | disconnectAttempt (roomSid : Nat)
  | clearRefs
deriving DecidableEq, Repr

/-! ### leaveLiveKit -/

/-- Environment for the leave sequence: which unpublish calls throw, and
whether `room.disconnect()` throws (both failures are caught by the source;
a disconnect failure has no further observable effect). -/
structure LeaveEnv where
  unpubFails : Nat → Bool
  disconnectFails : Bool

/-- The unpublish loop of `leaveLiveKit` in part_003: the whole
`for` loop sits inside a single `try { ... } catch {}`, so the first failing
`unpublishTrack` aborts the remaining iterations (the error is swallowed). -/
def unpubLoop003 (fails : Nat → Bool) : List Nat → List Effect
  | [] => []
  | t :: ts =>
    if fails t then [Effect.unpublishAttempt t]
    else Effect.unpublishAttempt t :: Effect.stopTrack t :: unpubLoop003 fails ts

/-- The unpublish loop of `leaveLiveKit` in app/src/features/livekit/join.ts:
each iteration has its own `try { ... } catch {}`, so every publication is
attempted regardless of earlier failures. -/
def unpubLoopApp (fails : Nat → Bool) : List Nat → List Effect
  | [] => []
  | t :: ts =>
    (if fails t then [Effect.unpublishAttempt t]
     else [Effect.unpublishAttempt t, Effect.stopTrack t]) ++ unpubLoopApp fails ts

/-- `leaveLiveKit()` (part_003): return immediately when `currentRoom` is null;
otherwise unpublish/stop the local publications (single try/catch around the
loop), detach all remote audio and video bindings, disconnect the transport
(failure caught), and clear the three mounts and `currentRoom`. -/
def leaveLiveKit (env : LeaveEnv) (st : ModuleState) : ModuleState × List Effect :=
  match st.currentRoom with
  | none => (st, [])
  | some room =>
    ({ currentRoom := none
       audioContainerEl := none
       remoteVideoContainerEl := none
       localVideoEl := none
       audioEls := []
       videoEls := []
       nextEl := st.nextEl },
     unpubLoop003 env.unpubFails room.pubs ++
       [Effect.detachAllAudio, Effect.detachAllVideo,
        Effect.disconnectAttempt room.sid, Effect.clearRefs])

/-- The `RoomEvent.Disconnected` handler installed by `joinLiveKit` (part_003):
detach all remote audio and video bindings, clear the three mounts and
`currentRoom`.  It performs no unpublish/stop of local publications and no
disconnect call. -/
def onDisconnected (st : ModuleState) : ModuleState × List Effect :=
  ({ currentRoom := none
     audioContainerEl := none
     remoteVideoContainerEl := none
     localVideoEl := none
     audioEls := []
     videoEls := []
     nextEl := st.nextEl },
   [Effect.detachAllAudio, Effect.detachAllVideo, Effect.clearRefs])

/-! ### Credential fetch (fetchLiveKitToken / the inline fetch in joinLiveKit) -/

/-- The token-endpoint response as observed by the code: `resp.ok`,
`resp.status`, the body text, and the optional `token` field of the JSON body. -/
structure TokenResp where
  ok : Bool
  status : Nat
  bodyText : Str
  jsonToken : Option Str
deriving DecidableEq, Repr

deriving instance DecidableEq for Except

/-- The error taxonomy of the token fetch. -/
inductive TokenError
  | tokenService (status : Nat) (body : Str)
  | malformed
deriving DecidableEq, Repr

/-- The response handling shared by `fetchLiveKitToken` (part_002) and the
inline fetch of `joinLiveKit` (part_003 lines 104-107): a non-ok response
throws with the status and body; a body whose `token` field is missing or
falsy (the empty string) throws the malformed-response error; otherwise the
token is returned. -/
def fetchTokenCore (resp : TokenResp) : Except TokenError Str :=
  if resp.ok then
    match resp.jsonToken with
    | none => .error .malformed
    | some t => if t = [] then .error .malformed else .ok t
  else
    .error (.tokenService resp.status resp.bodyText)

/-! ### joinLiveKit -/

/-- The error taxonomy of the join path (each corresponds to a `throw` in the
source; `notConnected` is `startCamera`'s `Not connected` throw, which a
`publishVideo` join always hits because `currentRoom` is assigned only after
the optional camera publish). -/
inductive JoinError
  | roomIdRequired
  | tokenService (status : Nat) (body : Str)
  | malformedTokenResp
  | invalidEndpoint (host : Str)
  | transportConnect
  | notConnected
deriving DecidableEq, Repr

/-- The optional mounts argument of `joinLiveKit` (part_003): the three render
surfaces, each optional. -/
structure Mounts where
  audioContainer : Option Nat
  remoteVideoContainer : Option Nat
  localVideo : Option Nat
deriving DecidableEq, Repr

/-- Per-call input of `joinLiveKit`: the room id, the mounts, and
`opts.publishVideo`. -/
structure JoinInput where
  roomId : Str
  mounts : Mounts
  publishVideo : Bool
deriving DecidableEq, Repr

/-- Environment for a join attempt: whether an authenticated user already
exists, the configured host, the token-endpoint response, whether
`room.connect` succeeds, the fresh room's session id, the tracks produced by
`createLocalTracks`, and the environment of the leave sequence run when a
session is already active.  Microphone track creation and publication are
taken to succeed; the claims under study only exercise failures of
validation, credential fetch, connect, camera publish, unpublish and
disconnect. -/
structure JoinEnv where
  hasUser : Bool
  host : Str
  tokenResp : TokenResp
  connectOk : Bool
  newRoomSid : Nat
  micTracks : List Nat
  leaveEnv : LeaveEnv

/-- The outcome of a join attempt: the module state it leaves behind, the
returned room handle or thrown error, and the trace of awaited external
calls in order. -/
structure JoinOut where
  state : ModuleState
  result : Except JoinError Room
  trace : List Effect
deriving Repr

/-- The room a successful join creates: the fresh session id with the
microphone tracks published.  A successful join never carries a camera
publication: the `publishVideo` branch always throws (see `joinCore`). -/
def roomMade (env : JoinEnv) : Room :=
  { sid := env.newRoomSid
    pubs := env.micTracks }

/-- The body of `joinLiveKit` after the `currentRoom` guard (part_003 lines
97-170): load config, ensure an authenticated user, fetch the id token, fetch
the room token (throwing on a non-ok response or a missing token), validate
the host scheme, capture the mounts, create the room, register the handlers,
connect (throwing on failure), best-effort `startAudio`, publish the
microphone tracks, optionally start the camera, and finally set `currentRoom`.
The camera branch is faithful to a slip in the source: `currentRoom = room`
(line 160) runs only after the optional `startCamera` call (lines 156-158),
and `startCamera` begins with `if (!currentRoom) throw new Error("Not
connected")` (line 186) — `currentRoom` is necessarily null at that point
(fresh, or nulled by the line-95 forced leave), so every `publishVideo: true`
join throws `Not connected` after connecting and publishing the microphone,
and `currentRoom` is never assigned. -/
def joinCore (env : JoinEnv) (inp : JoinInput) (st : ModuleState) : JoinOut :=
  let tr0 : List Effect :=
    Effect.configFetch :: (if env.hasUser then [] else [Effect.signIn]) ++
      [Effect.idTokenFetch, Effect.tokenFetch]
  match fetchTokenCore env.tokenResp with
  | .error (.tokenService s b) => ⟨st, .error (.tokenService s b), tr0⟩
  | .error .malformed => ⟨st, .error .malformedTokenResp, tr0⟩
  | .ok _token =>
    if isWsScheme env.host then
      let st1 : ModuleState :=
        { st with
          audioContainerEl := inp.mounts.audioContainer
          remoteVideoContainerEl := inp.mounts.remoteVideoContainer
          localVideoEl := inp.mounts.localVideo }
      let tr1 := tr0 ++ [Effect.connectAttempt env.newRoomSid]
      if env.connectOk then
        let tr2 := tr1 ++ Effect.startAudio ::
          (env.micTracks.map Effect.publishTrack)
        if inp.publishVideo then
          ⟨st1, .error .notConnected, tr2⟩
        else
          ⟨{ st1 with currentRoom := some (roomMade env) }, .ok (roomMade env), tr2⟩
      else
        ⟨st1, .error .transportConnect, tr1⟩
    else
      ⟨st, .error (.invalidEndpoint env.host), tr0⟩

/-- `joinLiveKit(roomId, mounts, opts)` (part_003): throw immediately when
`roomId` is empty (falsy); when a session is active, run the full
`leaveLiveKit` sequence first; then run the join body. -/
def joinLiveKit (env : JoinEnv) (inp : JoinInput) (st : ModuleState) : JoinOut :=
  if inp.roomId = [] then ⟨st, .error .roomIdRequired, []⟩
  else
    match st.currentRoom with
    | some _ =>
      let l := leaveLiveKit env.leaveEnv st
      let c := joinCore env inp l.1
      ⟨c.state, c.result, l.2 ++ c.trace⟩
    | none => joinCore env inp st

/-- Does this environment/input make `joinLiveKit` succeed?  A `publishVideo`
join never succeeds: `startCamera` throws `Not connected` because
`currentRoom` is assigned only after the optional camera publish. -/
def joinOk (env : JoinEnv) (inp : JoinInput) : Bool :=
  ¬ inp.roomId = [] && (fetchTokenCore env.tokenResp).isOk &&
    isWsScheme env.host && env.connectOk && ¬ inp.publishVideo = true

/-- Folding a sequence of join calls (no interleaved leave). -/
def runJoins (st : ModuleState) : List (JoinEnv × JoinInput) → ModuleState
  | [] => st
  | j :: rest => runJoins (joinLiveKit j.1 j.2 st).state rest

/-- All states passed through by a sequence of join calls, the start state
included. -/
def joinStates (st : ModuleState) : List (JoinEnv × JoinInput) → List ModuleState
  | [] => [st]
  | j :: rest => st :: joinStates (joinLiveKit j.1 j.2 st).state rest

/-- The number of non-null transport handles held by the module: `currentRoom`
is the only one. -/
def handleCount (st : ModuleState) : Nat :=
  match st.currentRoom with
  | some _ => 1
  | none => 0

/-! ### Transition system and module invariant -/

/-- One step of the module: a user operation at any time, or a transport event
(which is pushed by the connected room, hence only while a session is active). -/
inductive Step : ModuleState → ModuleState → Prop
  | join (env : JoinEnv) (inp : JoinInput) (st : ModuleState) :
      Step st (joinLiveKit env inp st).state
  | leave (env : LeaveEnv) (st : ModuleState) :
      Step st (leaveLiveKit env st).1
  | trackSub (track : RTrack) (p : Participant) (st : ModuleState)
      (h : st.currentRoom.isSome = true) : Step st (onTrackSubscribed st track p)
  | trackUnsub (track : RTrack) (p : Participant) (st : ModuleState)
      (h : st.currentRoom.isSome = true) : Step st (onTrackUnsubscribed st track p)
  | participantDisc (p : Participant) (st : ModuleState)
      (h : st.currentRoom.isSome = true) : Step st (onParticipantDisconnected st p)
  | disconnected (st : ModuleState) (h : st.currentRoom.isSome = true) :
      Step st (onDisconnected st).1

/-- States the module can actually be in, starting from the fresh module. -/
inductive Reachable : ModuleState → Prop
  | init : Reachable initState
  | step {st st' : ModuleState} : Reachable st → Step st st' → Reachable st'

/-- The Idle-state invariant: whenever no session is active, both binding maps
are empty. -/
def IdleClean (st : ModuleState) : Prop :=
  st.currentRoom = none → st.audioEls = [] ∧ st.videoEls = []

/-- The state `joinLiveKit` proceeds from after its `currentRoom` guard: the
input state itself, or the result of the forced leave when a session is
active. -/
def postGuard (env : JoinEnv) (st : ModuleState) : ModuleState :=
  match st.currentRoom with
  | some _ => (leaveLiveKit env.leaveEnv st).1
  | none => st

/-- The participant-identity segment of a binding key: everything before the
first `:` delimiter. -/
def keyIdent (k : Str) : Str := k.takeWhile (fun c => ¬ c = ':')

/-- The effects emitted by `joinLiveKit`'s `currentRoom` guard: the full leave
trace when a session is active, nothing otherwise. -/
def guardTrace (env : JoinEnv) (st : ModuleState) : List Effect :=
  match st.currentRoom with
  | some _ => (leaveLiveKit env.leaveEnv st).2
  | none => []

/-! ### Concrete inputs used by counterexamples and witnesses -/

/-- A leave environment in which nothing throws. -/
def demoLeaveEnv : LeaveEnv := ⟨fun _ => false, false⟩

/-- A successful token-endpoint response. -/
def demoTokenResp : TokenResp := ⟨true, 200, [], some "tok".toList⟩

/-- A join environment in which everything succeeds. -/
def demoEnvA : JoinEnv :=
  ⟨true, "wss://livekit.example".toList, demoTokenResp, true, 1, [10], demoLeaveEnv⟩

/-- A second all-success join environment, for a distinct session. -/
def demoEnvB : JoinEnv :=
  ⟨true, "wss://livekit.example".toList, demoTokenResp, true, 2, [11], demoLeaveEnv⟩

/-- A join input for room `R1` with an audio container mounted. -/
def demoInp : JoinInput := ⟨"R1".toList, ⟨some 7, none, none⟩, false⟩

/-- `demoEnvA` with an `http://` transport host. -/
def badHostEnv : JoinEnv := { demoEnvA with host := "http://livekit.example".toList }

/-- `demoEnvA` with a failing transport connect. -/
def connectFailEnv : JoinEnv := { demoEnvA with connectOk := false }

/-- An active session: one local publication (track 10), one remote audio
binding for participant `alice` and track `T1`. -/
def activeState : ModuleState :=
  { currentRoom := some ⟨1, [10]⟩
    audioContainerEl := some 7
    remoteVideoContainerEl := none
    localVideoEl := none
    audioEls := [(mkKey "alice".toList "T1".toList, 0)]
    videoEls := []
    nextEl := 1 }

/-- An active session whose audio bindings belong to the two participants
`a` and `a:b` — identities that overlap across the `:` delimiter. -/
def overlapState : ModuleState :=
  { currentRoom := some ⟨1, []⟩
    audioContainerEl := some 7
    remoteVideoContainerEl := none
    localVideoEl := none
    audioEls := [(mkKey "a".toList "T1".toList, 0), (mkKey "a:b".toList "T2".toList, 1)]
    videoEls := []
    nextEl := 2 }

/-- An active session whose audio bindings belong to the two participants
`a` and `ab` — colon-free identities, one a prefix of the other. -/
def overlapStateAB : ModuleState :=
  { currentRoom := some ⟨1, []⟩
    audioContainerEl := some 7
    remoteVideoContainerEl := none
    localVideoEl := none
    audioEls := [(mkKey "a".toList "T1".toList, 0), (mkKey "ab".toList "T2".toList, 1)]
    videoEls := []
    nextEl := 2 }

/-- A leave environment in which unpublishing track 1 throws. -/
def brokenLeaveEnv : LeaveEnv := ⟨fun t => t = 1, false⟩

/-- An active session with two local publications (tracks 1 and 2). -/
def twoPubState : ModuleState := { initState with currentRoom := some ⟨3, [1, 2]⟩ }

/-- The state reached from a fresh module by a track-subscribed event for
participant `alice` (participant sid `PA1`) and audio track `T1`, with the
audio container mounted. -/
def subscribedState : ModuleState :=
  onTrackSubscribed { initState with currentRoom := some ⟨1, [10]⟩, audioContainerEl := some 7 }
    ⟨.audio, "T1".toList⟩ ⟨"alice".toList, "PA1".toList⟩

/-- Two successful joins in a row, used to exercise the join sequence. -/
def demoJoins : List (JoinEnv × JoinInput) := [(demoEnvA, demoInp), (demoEnvB, demoInp)]

/-! ### Helper lemmas -/

lemma except_isOk_iff {ε α : Type} (x : Except ε α) : x.isOk = true ↔ ∃ a, x = .ok a := by
  cases x <;> simp [Except.isOk, Except.toBool]

lemma handleCount_le_one (st : ModuleState) : handleCount st ≤ 1 := by
  unfold handleCount
  cases st.currentRoom <;> simp

lemma joinCore_success {env : JoinEnv} {t : Str} (inp : JoinInput) (st : ModuleState)
    (ht : fetchTokenCore env.tokenResp = .ok t)
    (hhost : isWsScheme env.host = true) (hconn : env.connectOk = true)
    (hvid : inp.publishVideo = false) :
    (joinCore env inp st).state.currentRoom = some (roomMade env) ∧
    (joinCore env inp st).result = .ok (roomMade env) := by
  unfold joinCore
  rw [ht]
  simp [hhost, hconn, hvid]

lemma joinLiveKit_success {env : JoinEnv} {inp : JoinInput} (st : ModuleState)
    (h : joinOk env inp = true) :
    (joinLiveKit env inp st).state.currentRoom = some (roomMade env) := by
  simp only [joinOk, Bool.and_eq_true, decide_eq_true_eq] at h
  obtain ⟨⟨⟨⟨hroom, htok⟩, hhost⟩, hconn⟩, hvid⟩ := h
  obtain ⟨t, ht⟩ := (except_isOk_iff _).mp htok
  have hvid' : inp.publishVideo = false := by
    cases hv : inp.publishVideo with
    | false => rfl
    | true => exact absurd hv hvid
  unfold joinLiveKit
  rw [if_neg hroom]
  cases hcr : st.currentRoom with
  | none => exact (joinCore_success inp st ht hhost hconn hvid').1
  | some r => exact (joinCore_success inp _ ht hhost hconn hvid').1

lemma onTrackSubscribed_room (st : ModuleState) (track : RTrack) (p : Participant) :
    (onTrackSubscribed st track p).currentRoom = st.currentRoom := by
  unfold onTrackSubscribed attachRemoteAudio attachRemoteVideo
  cases track.kind <;> dsimp <;> split <;> rfl

lemma onTrackUnsubscribed_room (st : ModuleState) (track : RTrack) (p : Participant) :
    (onTrackUnsubscribed st track p).currentRoom = st.currentRoom := by
  unfold onTrackUnsubscribed detachRemoteAudio detachRemoteVideo
  cases track.kind <;> rfl

lemma onParticipantDisconnected_room (st : ModuleState) (p : Participant) :
    (onParticipantDisconnected st p).currentRoom = st.currentRoom := rfl

lemma idleClean_joinCore (env : JoinEnv) (inp : JoinInput) (st : ModuleState)
    (h : IdleClean st) : IdleClean (joinCore env inp st).state := by
  unfold joinCore
  cases hf : fetchTokenCore env.tokenResp with
  | error e =>
    cases e <;> exact h
  | ok t =>
    by_cases hhost : isWsScheme env.host = true
    · by_cases hconn : env.connectOk = true
      · by_cases hvid : inp.publishVideo = true
        · simp [hhost, hconn, hvid]
          intro hx
          exact h hx
        · simp [hhost, hconn, hvid]
          intro hx
          exact absurd hx (by simp)
      · simp [hhost, hconn]
        intro hx
        exact h hx
    · simp [hhost]
      exact h

lemma idleClean_cleared (st : ModuleState) :
    IdleClean { currentRoom := none, audioContainerEl := none, remoteVideoContainerEl := none,
                localVideoEl := none, audioEls := [], videoEls := [], nextEl := st.nextEl } := by
  intro _
  exact ⟨rfl, rfl⟩

lemma idleClean_leave (env : LeaveEnv) (st : ModuleState) (h : IdleClean st) :
    IdleClean (leaveLiveKit env st).1 := by
  unfold leaveLiveKit
  cases hcr : st.currentRoom with
  | none => exact h
  | some r => exact idleClean_cleared st

lemma idleClean_join (env : JoinEnv) (inp : JoinInput) (st : ModuleState)
    (h : IdleClean st) : IdleClean (joinLiveKit env inp st).state := by
  unfold joinLiveKit
  by_cases hroom : inp.roomId = []
  · simpa [hroom] using h
  · rw [if_neg hroom]
    cases hcr : st.currentRoom with
    | none => exact idleClean_joinCore env inp st h
    | some r =>
      dsimp
      refine idleClean_joinCore env inp _ ?_
      rw [show (leaveLiveKit env.leaveEnv st).1 =
            { currentRoom := none, audioContainerEl := none, remoteVideoContainerEl := none,
              localVideoEl := none, audioEls := [], videoEls := [], nextEl := st.nextEl } from ?_]
      · exact idleClean_cleared st
      · unfold leaveLiveKit
        rw [hcr]

lemma reachable_idleClean {st : ModuleState} (h : Reachable st) : IdleClean st := by
  induction h with
  | init => intro _; exact ⟨rfl, rfl⟩
  | step _ hs ih =>
    cases hs with
    | join env inp _ => exact idleClean_join env inp _ ih
    | leave env _ => exact idleClean_leave env _ ih
    | trackSub track p st hsome =>
      intro hnone
      rw [onTrackSubscribed_room] at hnone
      rw [hnone] at hsome
      cases hsome
    | trackUnsub track p st hsome =>
      intro hnone
      rw [onTrackUnsubscribed_room] at hnone
      rw [hnone] at hsome
      cases hsome
    | participantDisc p st hsome =>
      intro hnone
      rw [onParticipantDisconnected_room] at hnone
      rw [hnone] at hsome
      cases hsome
    | disconnected st hsome =>
      intro _
      exact ⟨rfl, rfl⟩

lemma connectAttempt_notin_unpubLoop003 (fails : Nat → Bool) (ts : List Nat) (sid : Nat) :
    Effect.connectAttempt sid ∉ unpubLoop003 fails ts := by
  induction ts with
  | nil => simp [unpubLoop003]
  | cons t ts ih =>
    unfold unpubLoop003
    split <;> simp [ih]

lemma connectAttempt_notin_leaveTrace (env : LeaveEnv) (st : ModuleState) (sid : Nat) :
    Effect.connectAttempt sid ∉ (leaveLiveKit env st).2 := by
  unfold leaveLiveKit
  cases st.currentRoom with
  | none => simp
  | some r => simp [connectAttempt_notin_unpubLoop003]

lemma count_tokenFetch_unpubLoop003 (fails : Nat → Bool) (ts : List Nat) :
    (unpubLoop003 fails ts).count Effect.tokenFetch = 0 := by
  induction ts with
  | nil => rfl
  | cons t ts ih =>
    unfold unpubLoop003
    split <;> simp [List.count_cons, ih]

lemma count_tokenFetch_leaveTrace (env : LeaveEnv) (st : ModuleState) :
    ((leaveLiveKit env st).2).count Effect.tokenFetch = 0 := by
  unfold leaveLiveKit
  cases st.currentRoom with
  | none => rfl
  | some r => simp [List.count_append, List.count_cons, count_tokenFetch_unpubLoop003]

lemma count_tokenFetch_map_publishTrack (l : List Nat) :
    (l.map Effect.publishTrack).count Effect.tokenFetch = 0 := by
  induction l with
  | nil => rfl
  | cons t ts ih => simp [List.count_cons, ih]

lemma count_tokenFetch_joinCore (env : JoinEnv) (inp : JoinInput) (st : ModuleState) :
    ((joinCore env inp st).trace).count Effect.tokenFetch = 1 := by
  unfold joinCore
  have htr0 : ((Effect.configFetch :: (if env.hasUser then [] else [Effect.signIn]) ++
      [Effect.idTokenFetch, Effect.tokenFetch]).count Effect.tokenFetch) = 1 := by
    split <;> simp [List.count_cons, List.count_append]
  cases hf : fetchTokenCore env.tokenResp with
  | error e => cases e <;> simpa using htr0
  | ok t =>
    by_cases hhost : isWsScheme env.host = true
    · by_cases hconn : env.connectOk = true
      · by_cases hvid : inp.publishVideo = true
        · simp only [hhost, hconn, hvid, if_true]
          simpa [List.count_append, List.count_cons, count_tokenFetch_map_publishTrack]
            using htr0
        · simp only [hhost, hconn, hvid, if_true, if_false]
          simpa [List.count_append, List.count_cons, count_tokenFetch_map_publishTrack]
            using htr0
      · simp only [hhost, if_true, hconn, if_false]
        simpa [List.count_append, List.count_cons] using htr0
    · simp only [hhost, if_false]
      simpa using htr0

lemma startsWith_mkKey_iff (p i s : Str) (hp : ':' ∉ p) (hi : ':' ∉ i) :
    startsWith (mkKey i s) (p ++ [':']) = true ↔ p = i := by
  induction i generalizing p with
  | nil =>
    cases p with
    | nil => simp [mkKey, startsWith]
    | cons c p' =>
      have hc : ¬ c = ':' := fun h => hp (h ▸ List.mem_cons_self c p')
      simp [mkKey, startsWith]
      intro h
      exact absurd h.symm hc
  | cons d i' ih =>
    have hd : ¬ d = ':' := fun h => hi (h ▸ List.mem_cons_self d i')
    cases p with
    | nil => simp [mkKey, startsWith, hd]
    | cons c p' =>
      have hp' : ':' ∉ p' := fun h => hp (List.mem_cons_of_mem c h)
      have hi' : ':' ∉ i' := fun h => hi (List.mem_cons_of_mem d h)
      have hred : startsWith (mkKey (d :: i') s) ((c :: p') ++ [':'])
          = (decide (d = c) && startsWith (mkKey i' s) (p' ++ [':'])) := rfl
      rw [hred, Bool.and_eq_true, decide_eq_true_eq, ih p' hp' hi']
      constructor
      · rintro ⟨h1, h2⟩
        rw [h1, h2]
      · intro h
        cases h
        exact ⟨rfl, rfl⟩

lemma keyIdent_mkKey (i s : Str) (hi : ':' ∉ i) : keyIdent (mkKey i s) = i := by
  induction i with
  | nil => simp [keyIdent, mkKey, List.takeWhile_cons]
  | cons d i' ih =>
    have hd : ¬ d = ':' := fun h => hi (h ▸ List.mem_cons_self d i')
    have hi' : ':' ∉ i' := fun h => hi (List.mem_cons_of_mem d h)
    have hred : keyIdent (mkKey (d :: i') s) = d :: keyIdent (mkKey i' s) := by
      unfold keyIdent
      rw [show mkKey (d :: i') s = d :: mkKey i' s from rfl, List.takeWhile_cons]
      simp [hd]
    rw [hred, ih hi']

lemma joinLiveKit_decomp (env : JoinEnv) (inp : JoinInput) (st : ModuleState)
    (hroom : ¬ inp.roomId = []) :
    (joinLiveKit env inp st).state = (joinCore env inp (postGuard env st)).state ∧
    (joinLiveKit env inp st).result = (joinCore env inp (postGuard env st)).result ∧
    (joinLiveKit env inp st).trace
      = guardTrace env st ++ (joinCore env inp (postGuard env st)).trace := by
  unfold joinLiveKit postGuard guardTrace
  rw [if_neg hroom]
  cases st.currentRoom with
  | none => exact ⟨rfl, rfl, by simp⟩
  | some r => exact ⟨rfl, rfl, rfl⟩

lemma postGuard_clean (env : JoinEnv) (st : ModuleState) (h : IdleClean st) :
    (postGuard env st).currentRoom = none ∧ (postGuard env st).audioEls = [] ∧
    (postGuard env st).videoEls = [] := by
  unfold postGuard
  cases hcr : st.currentRoom with
  | none => exact ⟨hcr, (h hcr).1, (h hcr).2⟩
  | some r =>
    unfold leaveLiveKit
    rw [hcr]
    exact ⟨rfl, rfl, rfl⟩

lemma connectAttempt_notin_guardTrace (env : JoinEnv) (st : ModuleState) (sid : Nat) :
    Effect.connectAttempt sid ∉ guardTrace env st := by
  unfold guardTrace
  cases st.currentRoom with
  | none => simp
  | some r => exact connectAttempt_notin_leaveTrace env.leaveEnv st sid

lemma count_tokenFetch_guardTrace (env : JoinEnv) (st : ModuleState) :
    (guardTrace env st).count Effect.tokenFetch = 0 := by
  unfold guardTrace
  cases st.currentRoom with
  | none => rfl
  | some r => exact count_tokenFetch_leaveTrace env.leaveEnv st

lemma joinCore_fail_state (env : JoinEnv) (inp : JoinInput) (st : ModuleState)
    (h : (fetchTokenCore env.tokenResp).isOk = false ∨ isWsScheme env.host = false) :
    (joinCore env inp st).state = st ∧ (joinCore env inp st).result.isOk = false := by
  unfold joinCore
  cases hf : fetchTokenCore env.tokenResp with
  | error e => cases e <;> exact ⟨rfl, rfl⟩
  | ok t =>
    rcases h with h | h
    · rw [hf] at h
      simp [Except.isOk, Except.toBool] at h
    · simp [h, Except.isOk, Except.toBool]

lemma joinCore_connectFail (env : JoinEnv) (inp : JoinInput) (st : ModuleState)
    {t : Str} (ht : fetchTokenCore env.tokenResp = .ok t)
    (hh : isWsScheme env.host = true) (hc : env.connectOk = false) :
    (joinCore env inp st).state =
      { st with
        audioContainerEl := inp.mounts.audioContainer
        remoteVideoContainerEl := inp.mounts.remoteVideoContainer
        localVideoEl := inp.mounts.localVideo } ∧
    (joinCore env inp st).result = .error .transportConnect := by
  unfold joinCore
  rw [ht]
  simp [hh, hc]

/-! ### Claim theorems -/

/-- Claim C10: calling `joinLiveKit` with an empty room identifier throws the
`roomId is required` error before performing any side effect — the returned
module state is exactly the input state and the effect trace is empty, so no
authentication, network call, or transport construction happened and
`currentRoom`, both binding maps, and all surface references are untouched. -/
theorem c10_empty_roomId_no_side_effect (env : JoinEnv) (inp : JoinInput) (st : ModuleState)
    (h : inp.roomId = []) :
    joinLiveKit env inp st = ⟨st, .error .roomIdRequired, []⟩ := by
  unfold joinLiveKit
  rw [if_pos h]

/-- Witness for C10: a concrete empty-room-id call on the fresh module. -/
theorem c10_witness :
    joinLiveKit demoEnvA ⟨[], ⟨none, none, none⟩, false⟩ initState
      = ⟨initState, .error .roomIdRequired, []⟩ :=
  c10_empty_roomId_no_side_effect demoEnvA ⟨[], ⟨none, none, none⟩, false⟩ initState rfl

/-- Claim C2 (code bug): a track-subscribed event for participant `alice`
(participant sid `PA1`) on audio track `T1` creates the binding keyed
`alice:T1`; the matching track-unsubscribed event (same participant, same
track) then leaves the state completely unchanged, because the handler deletes
the key built from `participant.sid` (`alice:PA1`) instead of `track.sid`
(`alice:T1`) — so the binding the claim says is absent is still present.  The
final conjunct checks the half of the claim that does hold: a
track-unsubscribed event whose key was never subscribed is a safe no-op. -/
theorem c2_unsubscribe_key_mismatch :
    mapGet subscribedState.audioEls (mkKey "alice".toList "T1".toList) = some 0 ∧
    onTrackUnsubscribed subscribedState ⟨.audio, "T1".toList⟩ ⟨"alice".toList, "PA1".toList⟩
      = subscribedState ∧
    mapGet (onTrackUnsubscribed subscribedState ⟨.audio, "T1".toList⟩
        ⟨"alice".toList, "PA1".toList⟩).audioEls (mkKey "alice".toList "T1".toList) = some 0 ∧
    onTrackUnsubscribed initState ⟨.audio, "T9".toList⟩ ⟨"bob".toList, "PB1".toList⟩
      = initState := by
  decide

/-- Claim C7 (code bug in part_003's `leaveLiveKit`): with two local
publications where unpublishing track 1 throws, the single try/catch wrapped
around the whole loop swallows the error but aborts the loop, so track 2 is
never attempted — while every subsequent step (detach both binding maps,
disconnect, clear references) still runs and the final state is fully cleared.
The app revision of the same function (`unpubLoopApp`, per-publication
try/catch) attempts every publication at the same input, as the claim
states. -/
theorem c7_leave_abandons_rest_on_failure :
    (leaveLiveKit brokenLeaveEnv twoPubState).2 =
      [Effect.unpublishAttempt 1, Effect.detachAllAudio, Effect.detachAllVideo,
       Effect.disconnectAttempt 3, Effect.clearRefs] ∧
    Effect.unpublishAttempt 2 ∉ (leaveLiveKit brokenLeaveEnv twoPubState).2 ∧
    (leaveLiveKit brokenLeaveEnv twoPubState).1 = initState ∧
    (∀ t ∈ [1, 2], Effect.unpublishAttempt t ∈ unpubLoopApp brokenLeaveEnv.unpubFails [1, 2]) := by
  decide

/-- Claim C4, counterexample: on a session with local publication 10, the
leave sequence attempts to unpublish it, but the `Disconnected` handler —
which the claim says performs the same resource-release steps — performs no
unpublish at all (its effects are exactly detach-audio, detach-video,
clear-refs). -/
theorem c4_counterexample :
    Effect.unpublishAttempt 10 ∈ (leaveLiveKit demoLeaveEnv activeState).2 ∧
    (onDisconnected activeState).2
      = [Effect.detachAllAudio, Effect.detachAllVideo, Effect.clearRefs] ∧
    Effect.unpublishAttempt 10 ∉ (onDisconnected activeState).2 := by
  decide

/-- Claim C4 (amended): a server-initiated disconnect triggers the
binding-detach and reference-clearing steps of `leave()` — all remote-track
bindings detached, surface references and the session handle cleared,
reaching exactly the same final state as `leaveLiveKit` and transitioning the
controller to Idle — but it does not unpublish or stop local publications. -/
theorem c4_disconnect_cleanup (st : ModuleState) (env : LeaveEnv) (r : Room)
    (h : st.currentRoom = some r) :
    (onDisconnected st).1 = (leaveLiveKit env st).1 ∧
    (onDisconnected st).1.currentRoom = none ∧
    (onDisconnected st).1.audioEls = [] ∧
    (onDisconnected st).1.videoEls = [] ∧
    (onDisconnected st).1.audioContainerEl = none ∧
    (onDisconnected st).1.remoteVideoContainerEl = none ∧
    (onDisconnected st).1.localVideoEl = none ∧
    (onDisconnected st).2 = [Effect.detachAllAudio, Effect.detachAllVideo, Effect.clearRefs] ∧
    (∀ t, Effect.unpublishAttempt t ∉ (onDisconnected st).2) := by
  unfold onDisconnected leaveLiveKit
  rw [h]
  refine ⟨rfl, rfl, rfl, rfl, rfl, rfl, rfl, rfl, ?_⟩
  intro t
  simp

/-- Witness for C4 (amended) at the concrete active session. -/
theorem c4_witness :
    (onDisconnected activeState).1 = (leaveLiveKit demoLeaveEnv activeState).1 ∧
    (onDisconnected activeState).1.currentRoom = none ∧
    (onDisconnected activeState).1.audioEls = [] ∧
    (onDisconnected activeState).1.videoEls = [] ∧
    (onDisconnected activeState).1.audioContainerEl = none ∧
    (onDisconnected activeState).1.remoteVideoContainerEl = none ∧
    (onDisconnected activeState).1.localVideoEl = none ∧
    (onDisconnected activeState).2
      = [Effect.detachAllAudio, Effect.detachAllVideo, Effect.clearRefs] ∧
    (∀ t, Effect.unpublishAttempt t ∉ (onDisconnected activeState).2) :=
  c4_disconnect_cleanup activeState demoLeaveEnv ⟨1, [10]⟩ rfl

/-- Claim C3, counterexample: with an `http://` transport host and a
token endpoint that answers successfully, `joinLiveKit` does reject with the
invalid-endpoint error, but the credential fetch has already been invoked —
`tokenFetch` is in the effect trace — contradicting the claim that the
token-endpoint request is never made on such an input. -/
theorem c3_counterexample :
    (joinLiveKit badHostEnv demoInp initState).result
      = .error (.invalidEndpoint badHostEnv.host) ∧
    Effect.tokenFetch ∈ (joinLiveKit badHostEnv demoInp initState).trace := by
  decide

/-- Claim C3 (amended): for every endpoint whose scheme does not match
`ws://` or `wss://` (case-insensitive), when the credential fetch itself
succeeds, `joinLiveKit` rejects with the invalid-endpoint error before the
transport connect is attempted (no connect effect ever appears in the trace)
and leaves the module state exactly as the `currentRoom` guard left it — but
the credential fetch is invoked before the validation, so `tokenFetch` does
appear in the trace. -/
theorem c3_invalid_endpoint_after_fetch (env : JoinEnv) (inp : JoinInput) (st : ModuleState)
    (hroom : ¬ inp.roomId = []) (htok : (fetchTokenCore env.tokenResp).isOk = true)
    (hhost : isWsScheme env.host = false) :
    (joinLiveKit env inp st).result = .error (.invalidEndpoint env.host) ∧
    (∀ sid, Effect.connectAttempt sid ∉ (joinLiveKit env inp st).trace) ∧
    Effect.tokenFetch ∈ (joinLiveKit env inp st).trace ∧
    (joinLiveKit env inp st).state = postGuard env st := by
  obtain ⟨t, ht⟩ := (except_isOk_iff _).mp htok
  obtain ⟨hs, hr, htr⟩ := joinLiveKit_decomp env inp st hroom
  have hcore_res : (joinCore env inp (postGuard env st)).result
      = .error (.invalidEndpoint env.host) := by
    unfold joinCore
    rw [ht]
    simp [hhost]
  have hcore_st : (joinCore env inp (postGuard env st)).state = postGuard env st := by
    unfold joinCore
    rw [ht]
    simp [hhost]
  have hcore_tr : (joinCore env inp (postGuard env st)).trace
      = Effect.configFetch :: (if env.hasUser then [] else [Effect.signIn]) ++
        [Effect.idTokenFetch, Effect.tokenFetch] := by
    unfold joinCore
    rw [ht]
    simp [hhost]
  refine ⟨hr.trans hcore_res, ?_, ?_, hs.trans hcore_st⟩
  · intro sid
    rw [htr, hcore_tr]
    intro hmem
    rcases List.mem_append.mp hmem with h1 | h2
    · exact connectAttempt_notin_guardTrace env st sid h1
    · by_cases henv : env.hasUser <;> simp [henv] at h2
  · rw [htr, hcore_tr]
    refine List.mem_append_right _ ?_
    by_cases henv : env.hasUser <;> simp [henv]

/-- Witness for C3 (amended) at the concrete bad-host environment. -/
theorem c3_witness :
    (joinLiveKit badHostEnv demoInp initState).result
      = .error (.invalidEndpoint badHostEnv.host) ∧
    (∀ sid, Effect.connectAttempt sid ∉ (joinLiveKit badHostEnv demoInp initState).trace) ∧
    Effect.tokenFetch ∈ (joinLiveKit badHostEnv demoInp initState).trace ∧
    (joinLiveKit badHostEnv demoInp initState).state = postGuard badHostEnv initState :=
  c3_invalid_endpoint_after_fetch badHostEnv demoInp initState (by decide) (by decide) (by decide)

/-- Claim C8, counterexample: with a valid host and a successful credential
fetch but a failing transport connect, `joinLiveKit` rejects with the
transport error and exposes no session handle — but the audio-container
surface reference, captured from the mounts before the connect attempt,
remains set (`some 7` instead of `none`), contradicting the claim that no
surface references remain set. -/
theorem c8_counterexample :
    (joinLiveKit connectFailEnv demoInp initState).result = .error .transportConnect ∧
    (joinLiveKit connectFailEnv demoInp initState).state.currentRoom = none ∧
    (joinLiveKit connectFailEnv demoInp initState).state.audioContainerEl = some 7 := by
  decide

/-- Claim C8 (amended): if endpoint validation, the credential fetch, or the
transport connect fails, `joinLiveKit` returns the controller to Idle — the
session handle stays null, no partial session handle is exposed, and no
bindings remain.  On validation/credential failure the module state is exactly
the state the `currentRoom` guard left (surface references untouched); on
transport-connect failure the surface references captured from the new mounts
remain set — they are not rolled back. -/
theorem c8_join_failure_atomicity (env : JoinEnv) (inp : JoinInput) (st : ModuleState)
    (hroom : ¬ inp.roomId = []) (hclean : IdleClean st) :
    ((fetchTokenCore env.tokenResp).isOk = false ∨ isWsScheme env.host = false →
      (joinLiveKit env inp st).result.isOk = false ∧
      (joinLiveKit env inp st).state = postGuard env st ∧
      (joinLiveKit env inp st).state.currentRoom = none ∧
      (joinLiveKit env inp st).state.audioEls = [] ∧
      (joinLiveKit env inp st).state.videoEls = []) ∧
    ((fetchTokenCore env.tokenResp).isOk = true → isWsScheme env.host = true →
      env.connectOk = false →
      (joinLiveKit env inp st).result = .error .transportConnect ∧
      (joinLiveKit env inp st).state.currentRoom = none ∧
      (joinLiveKit env inp st).state.audioEls = [] ∧
      (joinLiveKit env inp st).state.videoEls = [] ∧
      (joinLiveKit env inp st).state.audioContainerEl = inp.mounts.audioContainer ∧
      (joinLiveKit env inp st).state.remoteVideoContainerEl = inp.mounts.remoteVideoContainer ∧
      (joinLiveKit env inp st).state.localVideoEl = inp.mounts.localVideo) := by
  obtain ⟨hs, hr, _⟩ := joinLiveKit_decomp env inp st hroom
  obtain ⟨hgr, hga, hgv⟩ := postGuard_clean env st hclean
  constructor
  · intro hfail
    obtain ⟨hcs, hcr⟩ := joinCore_fail_state env inp (postGuard env st) hfail
    rw [hs, hr, hcs]
    exact ⟨hcr, rfl, hgr, hga, hgv⟩
  · intro htok hh hc
    obtain ⟨t, ht⟩ := (except_isOk_iff _).mp htok
    obtain ⟨hcs, hcr⟩ := joinCore_connectFail env inp (postGuard env st) ht hh hc
    rw [hs, hr, hcs]
    exact ⟨hcr, hgr, hga, hgv, rfl, rfl, rfl⟩

/-- Witness for C8 (amended) at the concrete failing-connect environment. -/
theorem c8_witness :
    ((fetchTokenCore connectFailEnv.tokenResp).isOk = false ∨
        isWsScheme connectFailEnv.host = false →
      (joinLiveKit connectFailEnv demoInp initState).result.isOk = false ∧
      (joinLiveKit connectFailEnv demoInp initState).state = postGuard connectFailEnv initState ∧
      (joinLiveKit connectFailEnv demoInp initState).state.currentRoom = none ∧
      (joinLiveKit connectFailEnv demoInp initState).state.audioEls = [] ∧
      (joinLiveKit connectFailEnv demoInp initState).state.videoEls = []) ∧
    ((fetchTokenCore connectFailEnv.tokenResp).isOk = true →
      isWsScheme connectFailEnv.host = true → connectFailEnv.connectOk = false →
      (joinLiveKit connectFailEnv demoInp initState).result = .error .transportConnect ∧
      (joinLiveKit connectFailEnv demoInp initState).state.currentRoom = none ∧
      (joinLiveKit connectFailEnv demoInp initState).state.audioEls = [] ∧
      (joinLiveKit connectFailEnv demoInp initState).state.videoEls = [] ∧
      (joinLiveKit connectFailEnv demoInp initState).state.audioContainerEl
        = demoInp.mounts.audioContainer ∧
      (joinLiveKit connectFailEnv demoInp initState).state.remoteVideoContainerEl
        = demoInp.mounts.remoteVideoContainer ∧
      (joinLiveKit connectFailEnv demoInp initState).state.localVideoEl
        = demoInp.mounts.localVideo) :=
  c8_join_failure_atomicity connectFailEnv demoInp initState (by decide)
    (fun _ => ⟨rfl, rfl⟩)

/-- Claim C1: for every sequence of `joinLiveKit` calls with no interleaved
`leaveLiveKit`, at every point at most one non-null transport handle
(`currentRoom`) exists; after the sequence completes only the session created
by the last join is active; and each join that finds an active session runs
the full leave sequence on it — its state threads through `leaveLiveKit`,
whose trace precedes the join body's trace, and which leaves the handle null
and both binding maps empty — before creating the new session. -/
theorem c1_at_most_one_active (st0 : ModuleState) (js : List (JoinEnv × JoinInput))
    (hok : ∀ j ∈ js, joinOk j.1 j.2 = true) :
    (∀ s ∈ joinStates st0 js, handleCount s ≤ 1) ∧
    (∀ j, js.getLast? = some j →
      (runJoins st0 js).currentRoom = some (roomMade j.1)) ∧
    (∀ (env : JoinEnv) (inp : JoinInput) (st : ModuleState), ¬ inp.roomId = [] →
      st.currentRoom.isSome = true →
      (joinLiveKit env inp st).state = (joinCore env inp (leaveLiveKit env.leaveEnv st).1).state ∧
      (joinLiveKit env inp st).trace = (leaveLiveKit env.leaveEnv st).2 ++
        (joinCore env inp (leaveLiveKit env.leaveEnv st).1).trace ∧
      (leaveLiveKit env.leaveEnv st).1.currentRoom = none ∧
      (leaveLiveKit env.leaveEnv st).1.audioEls = [] ∧
      (leaveLiveKit env.leaveEnv st).1.videoEls = []) := by
  refine ⟨fun s _ => handleCount_le_one s, ?_, ?_⟩
  · induction js generalizing st0 with
    | nil =>
      intro j hj
      simp at hj
    | cons a rest ih =>
      intro j hj
      cases rest with
      | nil =>
        have hj' : a = j := by simpa using hj
        subst hj'
        simpa [runJoins] using joinLiveKit_success st0 (hok a (by simp))
      | cons b rest' =>
        rw [List.getLast?_cons_cons] at hj
        have hrest : ∀ x ∈ b :: rest', joinOk x.1 x.2 = true :=
          fun x hx => hok x (List.mem_cons_of_mem a hx)
        simpa [runJoins] using ih (joinLiveKit a.1 a.2 st0).state hrest j hj
  · intro env inp st hroom hsome
    rw [Option.isSome_iff_exists] at hsome
    obtain ⟨r, hr⟩ := hsome
    constructor
    · unfold joinLiveKit
      rw [if_neg hroom, hr]
    constructor
    · unfold joinLiveKit
      rw [if_neg hroom, hr]
    · unfold leaveLiveKit
      rw [hr]
      exact ⟨rfl, rfl, rfl⟩

/-- Witness for C1: two successful joins in a row on the fresh module. -/
theorem c1_witness :
    (∀ s ∈ joinStates initState demoJoins, handleCount s ≤ 1) ∧
    (∀ j, demoJoins.getLast? = some j →
      (runJoins initState demoJoins).currentRoom = some (roomMade j.1)) ∧
    (∀ (env : JoinEnv) (inp : JoinInput) (st : ModuleState), ¬ inp.roomId = [] →
      st.currentRoom.isSome = true →
      (joinLiveKit env inp st).state = (joinCore env inp (leaveLiveKit env.leaveEnv st).1).state ∧
      (joinLiveKit env inp st).trace = (leaveLiveKit env.leaveEnv st).2 ++
        (joinCore env inp (leaveLiveKit env.leaveEnv st).1).trace ∧
      (leaveLiveKit env.leaveEnv st).1.currentRoom = none ∧
      (leaveLiveKit env.leaveEnv st).1.audioEls = [] ∧
      (leaveLiveKit env.leaveEnv st).1.videoEls = []) :=
  c1_at_most_one_active initState demoJoins (by decide)

/-- Claim C5: `leaveLiveKit` is idempotent.  On any reachable state: calling
it when already Idle (`currentRoom` null) returns immediately with the state
unchanged and no effects (so calling it twice in a row, or on a never-joined
controller, produces no error); after any leave the session handle is null
and both binding maps are empty; and a second leave right after a first one
is a no-op. -/
theorem c5_leave_idempotent (env env' : LeaveEnv) (st : ModuleState) (h : Reachable st) :
    (st.currentRoom = none → leaveLiveKit env st = (st, [])) ∧
    (leaveLiveKit env st).1.currentRoom = none ∧
    (leaveLiveKit env st).1.audioEls = [] ∧
    (leaveLiveKit env st).1.videoEls = [] ∧
    leaveLiveKit env' (leaveLiveKit env st).1 = ((leaveLiveKit env st).1, []) := by
  have hc := reachable_idleClean h
  cases hcr : st.currentRoom with
  | none =>
    have hl : leaveLiveKit env st = (st, []) := by
      unfold leaveLiveKit
      rw [hcr]
    have hl' : leaveLiveKit env' st = (st, []) := by
      unfold leaveLiveKit
      rw [hcr]
    rw [hl]
    exact ⟨fun _ => rfl, hcr, (hc hcr).1, (hc hcr).2, hl'⟩
  | some r =>
    have hl : (leaveLiveKit env st).1 =
        { currentRoom := none, audioContainerEl := none, remoteVideoContainerEl := none,
          localVideoEl := none, audioEls := [], videoEls := [], nextEl := st.nextEl } := by
      unfold leaveLiveKit
      rw [hcr]
    rw [hl]
    refine ⟨fun hn => absurd hn (by simp), rfl, rfl, rfl, rfl⟩

/-- Witness for C5 on the never-joined (initial) module state. -/
theorem c5_witness :
    (initState.currentRoom = none → leaveLiveKit demoLeaveEnv initState = (initState, [])) ∧
    (leaveLiveKit demoLeaveEnv initState).1.currentRoom = none ∧
    (leaveLiveKit demoLeaveEnv initState).1.audioEls = [] ∧
    (leaveLiveKit demoLeaveEnv initState).1.videoEls = [] ∧
    leaveLiveKit demoLeaveEnv (leaveLiveKit demoLeaveEnv initState).1
      = ((leaveLiveKit demoLeaveEnv initState).1, []) :=
  c5_leave_idempotent demoLeaveEnv demoLeaveEnv initState Reachable.init

/-- Claim C6, counterexample: participants with identities `a` and `a:b` hold
one audio binding each (keys `a:T1` and `a:b:T2`).  A participant-disconnected
event for `a` removes both bindings — `a:b`'s binding, whose key starts with
the filter's `a:` prefix, is removed although it belongs to a different
participant, contradicting the claim that no binding of any other participant
is removed. -/
theorem c6_counterexample :
    mapGet overlapState.audioEls (mkKey "a:b".toList "T2".toList) = some 1 ∧
    (onParticipantDisconnected overlapState ⟨"a".toList, "PA".toList⟩).audioEls = [] ∧
    mapGet (onParticipantDisconnected overlapState ⟨"a".toList, "PA".toList⟩).audioEls
      (mkKey "a:b".toList "T2".toList) = none := by
  decide

/-- Claim C6 (amended): provided participant identities are colon-free (do not
contain the `:` key delimiter), a participant-disconnected event for identity
`p` removes exactly the bindings whose key has `p` as its participant-identity
segment, and no binding of any other participant — in particular, for two
colon-free identities that are overlapping substrings (such as `a` and `ab`)
disconnecting one never removes the other's bindings.  With identities
containing `:` the prefix match is not delimiter-exact (see the
counterexample). -/
theorem c6_participant_disconnect_exact (st : ModuleState) (p : Participant)
    (hp : ':' ∉ p.identity)
    (ha : ∀ k ∈ st.audioEls.map Prod.fst, ∃ i s, ':' ∉ i ∧ k = mkKey i s)
    (hv : ∀ k ∈ st.videoEls.map Prod.fst, ∃ i s, ':' ∉ i ∧ k = mkKey i s) :
    (onParticipantDisconnected st p).audioEls
      = st.audioEls.filter (fun e => ¬ keyIdent e.1 = p.identity) ∧
    (onParticipantDisconnected st p).videoEls
      = st.videoEls.filter (fun e => ¬ keyIdent e.1 = p.identity) := by
  unfold onParticipantDisconnected detachAllRemoteAudioFor detachAllRemoteVideoFor
  dsimp
  constructor
  · apply List.filter_congr
    intro e he
    obtain ⟨i, s, hi, hk⟩ := ha e.1 (List.mem_map_of_mem _ he)
    rw [hk, keyIdent_mkKey i s hi]
    by_cases hpi : p.identity = i
    · subst hpi
      have hsw := (startsWith_mkKey_iff p.identity p.identity s hp hp).mpr rfl
      simp [hsw]
    · have hsw : startsWith (mkKey i s) (p.identity ++ [':']) = false := by
        cases h' : startsWith (mkKey i s) (p.identity ++ [':']) with
        | false => rfl
        | true => exact absurd ((startsWith_mkKey_iff p.identity i s hp hi).mp h') hpi
      have hip : ¬ i = p.identity := fun h => hpi h.symm
      simp [hsw, hip]
  · apply List.filter_congr
    intro e he
    obtain ⟨i, s, hi, hk⟩ := hv e.1 (List.mem_map_of_mem _ he)
    rw [hk, keyIdent_mkKey i s hi]
    by_cases hpi : p.identity = i
    · subst hpi
      have hsw := (startsWith_mkKey_iff p.identity p.identity s hp hp).mpr rfl
      simp [hsw]
    · have hsw : startsWith (mkKey i s) (p.identity ++ [':']) = false := by
        cases h' : startsWith (mkKey i s) (p.identity ++ [':']) with
        | false => rfl
        | true => exact absurd ((startsWith_mkKey_iff p.identity i s hp hi).mp h') hpi
      have hip : ¬ i = p.identity := fun h => hpi h.symm
      simp [hsw, hip]

/-- Witness for C6 (amended): participants `a` and `ab` — colon-free
overlapping identities — with one audio binding each; disconnecting `a`
removes exactly `a`'s binding. -/
theorem c6_witness :
    (onParticipantDisconnected overlapStateAB ⟨"a".toList, "PA".toList⟩).audioEls
      = overlapStateAB.audioEls.filter (fun e => ¬ keyIdent e.1 = "a".toList) ∧
    (onParticipantDisconnected overlapStateAB ⟨"a".toList, "PA".toList⟩).videoEls
      = overlapStateAB.videoEls.filter (fun e => ¬ keyIdent e.1 = "a".toList) :=
  c6_participant_disconnect_exact overlapStateAB ⟨"a".toList, "PA".toList⟩ (by decide)
    (by
      intro k hk
      simp [overlapStateAB] at hk
      rcases hk with h | h
      · exact ⟨"a".toList, "T1".toList, by decide, h⟩
      · exact ⟨"ab".toList, "T2".toList, by decide, h⟩)
    (by
      intro k hk
      simp [overlapStateAB] at hk)

/-- Claim C9: the credential fetch returns a non-empty token string on
success; it fails with the token-service error carrying the HTTP status and
body when the response status is not success, and with the malformed-response
error when the body lacks a token field; and no failure is retried — a join
attempt issues exactly one token-endpoint request whatever the outcome. -/
theorem c9_token_contract (resp : TokenResp) :
    (∀ t, fetchTokenCore resp = .ok t → ¬ t = []) ∧
    (resp.ok = false → fetchTokenCore resp = .error (.tokenService resp.status resp.bodyText)) ∧
    (resp.ok = true → resp.jsonToken = none → fetchTokenCore resp = .error .malformed) ∧
    (∀ (env : JoinEnv) (inp : JoinInput) (st : ModuleState), env.tokenResp = resp →
      ¬ inp.roomId = [] →
      ((joinLiveKit env inp st).trace).count Effect.tokenFetch = 1) := by
  refine ⟨?_, ?_, ?_, ?_⟩
  · intro t h
    unfold fetchTokenCore at h
    cases hok : resp.ok with
    | false => simp [hok] at h
    | true =>
      cases hj : resp.jsonToken with
      | none => simp [hok, hj] at h
      | some t' =>
        by_cases ht' : t' = []
        · simp [hok, hj, ht'] at h
        · simp [hok, hj, ht'] at h
          rw [← h]
          exact ht'
  · intro hok
    unfold fetchTokenCore
    simp [hok]
  · intro hok hj
    unfold fetchTokenCore
    simp [hok, hj]
  · intro env inp st _ hroom
    obtain ⟨_, _, htr⟩ := joinLiveKit_decomp env inp st hroom
    rw [htr, List.count_append, count_tokenFetch_guardTrace, count_tokenFetch_joinCore]

/-- Witness for C9: a denied (403) response yields the token-service error
with its status and body, and a concrete successful join issues exactly one
token-endpoint request. -/
theorem c9_witness :
    fetchTokenCore ⟨false, 403, "denied".toList, none⟩
      = .error (.tokenService 403 "denied".toList) ∧
    ((joinLiveKit demoEnvA demoInp initState).trace).count Effect.tokenFetch = 1 :=
  ⟨(c9_token_contract ⟨false, 403, "denied".toList, none⟩).2.1 rfl,
   (c9_token_contract demoEnvA.tokenResp).2.2.2 demoEnvA demoInp initState rfl (by decide)⟩

end RPGVCMC
